import Mathlib

/-!
Shallow embedding of the MySQL ADBC error-inspector fragment
(src/go/error_inspector.go) and proofs about its classification
behaviour.

The Go code consists of a single pure function

  func (m MySQLErrorInspector) InspectError(err error, defaultStatus adbc.Status) driverbase.ErrorInfo

which, given an arbitrary Go error value and a default ADBC status,
tries to extract a *mysql.MySQLError (via errors.As, which follows
wrapped error chains), records its vendor code and SQLSTATE, classifies
the vendor code through a switch, and falls back to a SQLSTATE
two-character class switch when the status still equals the default.
-/

namespace MySQLInspector

/-- The ADBC status enumeration (adbc.Status from the external
apache/arrow-adbc Go package).  The Go constants are
StatusOK, StatusUnknown, StatusNotImplemented, StatusNotFound,
StatusAlreadyExists, StatusInvalidArgument, StatusInvalidState,
StatusInvalidData, StatusIntegrity, StatusInternal, StatusIO,
StatusCancelled, StatusTimeout, StatusUnauthenticated,
StatusUnauthorized. -/
inductive Status where
  | ok
  | unknown
  | notImplemented
  | notFound
  | alreadyExists
  | invalidArgument
  | invalidState
  | invalidData
  | integrity
  | internal
  | ioError
  | cancelled
  | timeout
  | unauthenticated
  | unauthorized
deriving DecidableEq, Repr

/-- The vendor error type mysql.MySQLError of the go-sql-driver/mysql
package: Number is a uint16 and SQLState a fixed [5]byte array. -/
structure MySQLError where
  Number : Fin 65536
  SQLState : Fin 5 → Fin 256

/-- A Go error value, as far as the inspector can observe it: it is
either a *mysql.MySQLError, some other error wrapping an inner error
(errors.As unwraps these), or an unrelated leaf error. -/
inductive GoError where
  | mysqlErr (e : MySQLError)
  | wrapped (msg : String) (inner : GoError)
  | plain (msg : String)

/-- errors.As(err, &mysqlErr) for target type *mysql.MySQLError:
walks the wrapped chain and returns the first MySQLError found. -/
def errorsAs : GoError → Option MySQLError
  | .mysqlErr e => some e
  | .wrapped _ inner => errorsAs inner
  | .plain _ => none

/-- string(mysqlErr.SQLState[:]) : the five SQLSTATE bytes, read as a
five-character string. -/
def sqlStateString (e : MySQLError) : String :=
  String.mk ((List.finRange 5).map fun i => Char.ofNat (e.SQLState i).val)

/-- The output record driverbase.ErrorInfo: a normalized status, a
signed 32-bit vendor code and the SQLSTATE string. -/
structure ErrorInfo where
  Status : Status
  VendorCode : Int
  SqlState : String
deriving DecidableEq, Repr

/-- The vendor-code switch of InspectError: each case of the Go switch
becomes one branch; the switch has no default case, so an unmatched
code leaves the status argument unchanged. -/
def vendorCodeStatus (n : Nat) (current : Status) : Status :=
  if n = 1045 then Status.unauthenticated
  else if n = 1044 ∨ n = 1142 ∨ n = 1143 ∨ n = 1227 then Status.unauthorized
  else if n = 1146 then Status.notFound
  else if n = 1049 then Status.notFound
  else if n = 1050 then Status.alreadyExists
  else if n = 1007 then Status.alreadyExists
  else if n = 1062 then Status.integrity
  else if n = 1451 then Status.integrity
  else if n = 1452 then Status.integrity
  else if n = 1048 then Status.integrity
  else if n = 1364 then Status.integrity
  else if n = 1064 then Status.invalidArgument
  else if n = 1054 then Status.invalidArgument
  else if n = 1052 then Status.invalidArgument
  else if n = 1366 then Status.invalidData
  else if n = 1292 then Status.invalidData
  else if n = 1264 then Status.invalidData
  else if n = 1205 then Status.timeout
  else if n = 1213 then Status.cancelled
  else if n = 2002 ∨ n = 2003 ∨ n = 2006 ∨ n = 2013 then Status.ioError
  else if n = 1105 then Status.internal
  else current

/-- The SQLSTATE-class switch of InspectError: switch info.SqlState[:2]
with no default case, so an unmatched class leaves the status argument
unchanged. -/
def sqlStateClassStatus (p : String) (current : Status) : Status :=
  if p = "02" then Status.notFound
  else if p = "07" then Status.ioError
  else if p = "08" then Status.ioError
  else if p = "21" ∨ p = "22" then Status.invalidData
  else if p = "23" then Status.integrity
  else if p = "28" then Status.unauthenticated
  else if p = "34" then Status.invalidArgument
  else if p = "42" then Status.invalidArgument
  else if p = "44" then Status.integrity
  else if p = "55" ∨ p = "57" then Status.invalidState
  else if p = "58" then Status.internal
  else current

/-- InspectError, translated line by line from
src/go/error_inspector.go.  info starts as the default status with
zero vendor fields; if errors.As extracts a MySQLError the vendor
fields are recorded, the vendor-code switch runs, and then, exactly as
in the source, the SQLSTATE class fallback runs when
len(info.SqlState) >= 2 && info.Status == defaultStatus. -/
def InspectError (err : GoError) (defaultStatus : Status) : ErrorInfo :=
  match errorsAs err with
  | none => { Status := defaultStatus, VendorCode := 0, SqlState := "" }
  | some mysqlErr =>
    let vendorCode : Int := (mysqlErr.Number.val : Int)
    let sqlState : String := sqlStateString mysqlErr
    let status1 : Status := vendorCodeStatus mysqlErr.Number.val defaultStatus
    let status2 : Status :=
      if 2 ≤ sqlState.length ∧ status1 = defaultStatus
      then sqlStateClassStatus (sqlState.take 2) status1
      else status1
    { Status := status2, VendorCode := vendorCode, SqlState := sqlState }

/-- The codes appearing in the vendor-code switch (the keys of the
vendor-code table of the spec). -/
def vendorCodes : List Nat :=
  [1045, 1044, 1142, 1143, 1227, 1146, 1049, 1050, 1007, 1062, 1451,
   1452, 1048, 1364, 1064, 1054, 1052, 1366, 1292, 1264, 1205, 1213,
   2002, 2003, 2006, 2013, 1105]

/-- The vendor-code table of the spec, as (code, category) pairs. -/
def vendorTable : List (Nat × Status) :=
  [(1045, .unauthenticated),
   (1044, .unauthorized), (1142, .unauthorized), (1143, .unauthorized),
   (1227, .unauthorized),
   (1146, .notFound), (1049, .notFound),
   (1050, .alreadyExists), (1007, .alreadyExists),
   (1062, .integrity), (1451, .integrity), (1452, .integrity),
   (1048, .integrity), (1364, .integrity),
   (1064, .invalidArgument), (1054, .invalidArgument),
   (1052, .invalidArgument),
   (1366, .invalidData), (1292, .invalidData), (1264, .invalidData),
   (1205, .timeout), (1213, .cancelled),
   (2002, .ioError), (2003, .ioError), (2006, .ioError),
   (2013, .ioError),
   (1105, .internal)]

/-- The classes appearing in the SQLSTATE fallback switch (the keys of
the fallback table of the spec). -/
def fallbackKeys : List String :=
  ["02", "07", "08", "21", "22", "23", "28", "34", "42", "44",
   "55", "57", "58"]

/-- The SQLSTATE fallback table of the spec, as (class, category)
pairs. -/
def fallbackTable : List (String × Status) :=
  [("02", .notFound),
   ("07", .ioError), ("08", .ioError),
   ("21", .invalidData), ("22", .invalidData),
   ("23", .integrity),
   ("28", .unauthenticated),
   ("34", .invalidArgument), ("42", .invalidArgument),
   ("44", .integrity),
   ("55", .invalidState), ("57", .invalidState),
   ("58", .internal)]

/-- Builder for a concrete five-byte SQLSTATE array. -/
def sqlBytes (a b c d e : Fin 256) : Fin 5 → Fin 256 :=
  fun i => [a, b, c, d, e].get (Fin.cast (by simp) i)

/-- ER_ACCESS_DENIED_ERROR (code 1045) carrying SQLSTATE 02000; the
byte values 48 and 50 are the ASCII digits 0 and 2. -/
def errAccessDenied : MySQLError := ⟨1045, sqlBytes 48 50 48 48 48⟩

/-- ER_DUP_ENTRY (code 1062) carrying SQLSTATE 42000. -/
def errDupEntry : MySQLError := ⟨1062, sqlBytes 52 50 48 48 48⟩

/-- A vendor error with a code (9999) outside the vendor-code table,
carrying SQLSTATE 08S01 (connection exception class 08). -/
def errConn08 : MySQLError := ⟨9999, sqlBytes 48 56 83 48 49⟩

/-- A vendor error with a code (9999) outside the vendor-code table,
carrying SQLSTATE 99999, whose class 99 is outside the fallback
table. -/
def errUnmapped99 : MySQLError := ⟨9999, sqlBytes 57 57 57 57 57⟩

/-- The SQLSTATE string of a recognized vendor error always has
exactly five characters, one per byte of the fixed [5]byte array. -/
theorem sqlStateString_length (e : MySQLError) :
    (sqlStateString e).length = 5 := by
  simp [sqlStateString, String.length]

/-- A vendor code outside the vendor-code switch leaves the status
argument unchanged (the Go switch has no default case). -/
theorem vendorCodeStatus_of_not_mem (n : Nat) (d : Status)
    (h : n ∉ vendorCodes) : vendorCodeStatus n d = d := by
  simp only [vendorCodes, List.mem_cons, List.not_mem_nil, or_false,
    not_or] at h
  obtain ⟨v01, v02, v03, v04, v05, v06, v07, v08, v09, v10, v11, v12,
    v13, v14, v15, v16, v17, v18, v19, v20, v21, v22, v23, v24, v25,
    v26, v27⟩ := h
  unfold vendorCodeStatus
  rw [if_neg v01,
    if_neg (not_or.mpr ⟨v02, not_or.mpr ⟨v03, not_or.mpr ⟨v04, v05⟩⟩⟩),
    if_neg v06, if_neg v07, if_neg v08, if_neg v09, if_neg v10,
    if_neg v11, if_neg v12, if_neg v13, if_neg v14, if_neg v15,
    if_neg v16, if_neg v17, if_neg v18, if_neg v19, if_neg v20,
    if_neg v21, if_neg v22,
    if_neg (not_or.mpr ⟨v23, not_or.mpr ⟨v24, not_or.mpr ⟨v25, v26⟩⟩⟩),
    if_neg v27]

/-- A SQLSTATE class outside the fallback switch leaves the status
argument unchanged (the Go switch has no default case). -/
theorem sqlStateClassStatus_of_not_mem (p : String) (s : Status)
    (h : p ∉ fallbackKeys) : sqlStateClassStatus p s = s := by
  simp only [fallbackKeys, List.mem_cons, List.not_mem_nil, or_false,
    not_or] at h
  obtain ⟨k01, k02, k03, k04, k05, k06, k07, k08, k09, k10, k11, k12,
    k13⟩ := h
  unfold sqlStateClassStatus
  rw [if_neg k01, if_neg k02, if_neg k03,
    if_neg (not_or.mpr ⟨k04, k05⟩), if_neg k06, if_neg k07, if_neg k08,
    if_neg k09, if_neg k10, if_neg (not_or.mpr ⟨k11, k12⟩),
    if_neg k13]

/-- On a non-vendor error the inspector returns the default status and
empty vendor fields. -/
theorem inspectError_none_eq (err : GoError) (d : Status)
    (h : errorsAs err = none) :
    InspectError err d = { Status := d, VendorCode := 0, SqlState := "" } := by
  simp only [InspectError, h]

/-- Unfolding of InspectError on a recognized vendor error: the vendor
fields are copied verbatim and the status is the two-tier computation
of the source, with the fallback guarded by the status still being
equal to the default. -/
theorem inspectError_some_eq (err : GoError) (e : MySQLError) (d : Status)
    (he : errorsAs err = some e) :
    InspectError err d =
      { Status :=
          if 2 ≤ (sqlStateString e).length ∧ vendorCodeStatus e.Number.val d = d
          then sqlStateClassStatus ((sqlStateString e).take 2)
                 (vendorCodeStatus e.Number.val d)
          else vendorCodeStatus e.Number.val d,
        VendorCode := (e.Number.val : Int),
        SqlState := sqlStateString e } := by
  simp only [InspectError, he]

/-- Status computation on a recognized vendor error, with the length
guard discharged: the SQLSTATE fallback runs exactly when the
vendor-code switch left the status equal to the default. -/
theorem inspectError_status_some (err : GoError) (e : MySQLError) (d : Status)
    (he : errorsAs err = some e) :
    (InspectError err d).Status =
      if vendorCodeStatus e.Number.val d = d
      then sqlStateClassStatus ((sqlStateString e).take 2) d
      else vendorCodeStatus e.Number.val d := by
  rw [inspectError_some_eq err e d he]
  by_cases hv : vendorCodeStatus e.Number.val d = d <;>
    simp [sqlStateString_length, hv]

/-- When neither the vendor code nor the SQLSTATE class is in its
table, the inspector reports the default status together with the
extracted vendor fields. -/
theorem inspectError_unmatched_eq (err : GoError) (e : MySQLError) (d : Status)
    (he : errorsAs err = some e) (hn : e.Number.val ∉ vendorCodes)
    (hk : (sqlStateString e).take 2 ∉ fallbackKeys) :
    InspectError err d =
      { Status := d, VendorCode := (e.Number.val : Int),
        SqlState := sqlStateString e } := by
  have hv := vendorCodeStatus_of_not_mem e.Number.val d hn
  have hc := sqlStateClassStatus_of_not_mem ((sqlStateString e).take 2) d hk
  rw [inspectError_some_eq err e d he]
  simp [sqlStateString_length, hv, hc]

/-- When the vendor code is outside the vendor-code table and the
SQLSTATE class is a key of the fallback table, the resulting status is
the category of that class. -/
theorem inspectError_fallback_status (err : GoError) (e : MySQLError)
    (d s : Status) (he : errorsAs err = some e)
    (hn : e.Number.val ∉ vendorCodes)
    (hp : ((sqlStateString e).take 2, s) ∈ fallbackTable) :
    (InspectError err d).Status = s := by
  have hv := vendorCodeStatus_of_not_mem e.Number.val d hn
  rw [inspectError_status_some err e d he, if_pos hv]
  simp only [fallbackTable, List.mem_cons, List.not_mem_nil, or_false,
    Prod.mk.injEq] at hp
  rcases hp with ⟨hq, hs⟩ | ⟨hq, hs⟩ | ⟨hq, hs⟩ | ⟨hq, hs⟩ | ⟨hq, hs⟩ |
      ⟨hq, hs⟩ | ⟨hq, hs⟩ | ⟨hq, hs⟩ | ⟨hq, hs⟩ | ⟨hq, hs⟩ | ⟨hq, hs⟩ |
      ⟨hq, hs⟩ | ⟨hq, hs⟩ <;>
    (rw [hq, hs]; rfl)

/-- Claim C1, refuted at a concrete input: the vendor-code table maps
1045 to Unauthenticated, yet on the vendor error with code 1045 and
SQLSTATE 02000, with default status Unauthenticated, InspectError
returns NotFound rather than the documented category.  The fallback
guard compares the current status with the default status instead of
recording whether a vendor-code case fired, so a vendor-code
classification that coincides with the default is overridden by the
SQLSTATE class fallback. -/
theorem inspectError_code1045_default_unauthenticated :
    (1045, Status.unauthenticated) ∈ vendorTable ∧
    Status.notFound ≠ Status.unauthenticated ∧
    InspectError (GoError.mysqlErr errAccessDenied) Status.unauthenticated
      = { Status := Status.notFound, VendorCode := 1045,
          SqlState := "02000" } := by
  decide

/-- Claim C2, refuted at a concrete input: code 1062 maps to Integrity
in the vendor-code table and SQLSTATE class 42 maps to InvalidArgument
in the fallback table, yet with default status Integrity the result is
InvalidArgument, so the vendor-code rule does not take precedence when
its category equals the default status: the fallback table is
consulted even though a vendor-code rule fired. -/
theorem inspectError_code1062_default_integrity :
    (1062, Status.integrity) ∈ vendorTable ∧
    ("42", Status.invalidArgument) ∈ fallbackTable ∧
    Status.invalidArgument ≠ Status.integrity ∧
    InspectError (GoError.mysqlErr errDupEntry) Status.integrity
      = { Status := Status.invalidArgument, VendorCode := 1062,
          SqlState := "42000" } := by
  decide

/-- Claim C3: for every error value that is not and does not wrap a
vendor error, and every default status d, InspectError returns exactly
Status d, VendorCode 0 and empty SqlState; absence of a vendor error
is never signaled as a failure. -/
theorem inspectError_non_vendor (err : GoError) (d : Status)
    (h : errorsAs err = none) :
    InspectError err d = { Status := d, VendorCode := 0, SqlState := "" } :=
  inspectError_none_eq err d h

theorem inspectError_non_vendor_witness :
    InspectError (GoError.plain "boom") Status.internal
      = { Status := Status.internal, VendorCode := 0, SqlState := "" } :=
  inspectError_non_vendor (GoError.plain "boom") Status.internal rfl

/-- Claim C4: for every vendor error whose numeric code is not in the
vendor-code table but whose SQLSTATE class (first two characters) is a
key of the fallback table, and for every default status, InspectError
returns the category the fallback table assigns to that class. -/
theorem inspectError_fallback_applies (err : GoError) (e : MySQLError)
    (d s : Status) (he : errorsAs err = some e)
    (hn : e.Number.val ∉ vendorCodes)
    (hp : ((sqlStateString e).take 2, s) ∈ fallbackTable) :
    (InspectError err d).Status = s :=
  inspectError_fallback_status err e d s he hn hp

theorem inspectError_fallback_applies_witness :
    (InspectError (GoError.wrapped "query failed"
        (GoError.mysqlErr errConn08)) Status.ok).Status = Status.ioError :=
  inspectError_fallback_applies _ errConn08 Status.ok Status.ioError rfl
    (by decide) (by decide)

/-- Claim C5: for every vendor error whose numeric code is not in the
vendor-code table and whose SQLSTATE class is not a key of the
fallback table (or whose SQLSTATE has fewer than two characters), and
for every default status d, InspectError keeps Status d unchanged
while still reporting the extracted VendorCode and SqlState. -/
theorem inspectError_unmatched_keeps_default (err : GoError) (e : MySQLError)
    (d : Status) (he : errorsAs err = some e)
    (hn : e.Number.val ∉ vendorCodes)
    (hp : (sqlStateString e).take 2 ∉ fallbackKeys ∨
      (sqlStateString e).length < 2) :
    InspectError err d =
      { Status := d, VendorCode := (e.Number.val : Int),
        SqlState := sqlStateString e } := by
  rcases hp with hk | hlen
  · exact inspectError_unmatched_eq err e d he hn hk
  · rw [sqlStateString_length] at hlen
    omega

theorem inspectError_unmatched_keeps_default_witness :
    InspectError (GoError.mysqlErr errUnmapped99) Status.unknown
      = { Status := Status.unknown, VendorCode := 9999,
          SqlState := "99999" } :=
  inspectError_unmatched_keeps_default _ errUnmapped99 Status.unknown rfl
    (by decide) (Or.inl (by decide))

/-- Claim C6: the data-model invariant of ErrorInfo.  The returned
Status (a member of the enumerated status type by construction) equals
the supplied default unless the error carries a vendor code of the
vendor-code table or a SQLSTATE class of the fallback table; and the
vendor fields are populated together or not at all: either a vendor
error was extracted and VendorCode and SqlState carry its values, or
neither does (VendorCode is zero and SqlState is empty). -/
theorem inspectError_invariants (err : GoError) (d : Status) :
    ((InspectError err d).Status = d ∨
      ∃ e, errorsAs err = some e ∧
        (e.Number.val ∈ vendorCodes ∨
          (sqlStateString e).take 2 ∈ fallbackKeys)) ∧
    ((∃ e, errorsAs err = some e ∧
        (InspectError err d).VendorCode = (e.Number.val : Int) ∧
        (InspectError err d).SqlState = sqlStateString e) ∨
      (errorsAs err = none ∧ (InspectError err d).VendorCode = 0 ∧
        (InspectError err d).SqlState = "")) := by
  cases h : errorsAs err with
  | none =>
    rw [inspectError_none_eq err d h]
    exact ⟨Or.inl rfl, Or.inr ⟨rfl, rfl, rfl⟩⟩
  | some e =>
    constructor
    · by_cases hn : e.Number.val ∈ vendorCodes
      · exact Or.inr ⟨e, rfl, Or.inl hn⟩
      · by_cases hk : (sqlStateString e).take 2 ∈ fallbackKeys
        · exact Or.inr ⟨e, rfl, Or.inr hk⟩
        · rw [inspectError_unmatched_eq err e d h hn hk]
          exact Or.inl rfl
    · rw [inspectError_some_eq err e d h]
      exact Or.inl ⟨e, rfl, rfl, rfl⟩

/-- Claim C7: InspectError is total; it is a plain function of the
embedding that produces an ErrorInfo for every error value and every
default status, with no partiality escape hatch. -/
theorem inspectError_total (err : GoError) (d : Status) :
    ∃ info : ErrorInfo, InspectError err d = info :=
  ⟨InspectError err d, rfl⟩

/-- Claim C8: InspectError is a deterministic pure function of its two
arguments: equal inputs give equal ErrorInfo outputs, with no
dependence on external state. -/
theorem inspectError_deterministic (err1 err2 : GoError) (d1 d2 : Status)
    (herr : err1 = err2) (hd : d1 = d2) :
    InspectError err1 d1 = InspectError err2 d2 := by
  rw [herr, hd]

theorem inspectError_deterministic_witness :
    InspectError (GoError.plain "x") Status.ok
      = InspectError (GoError.plain "x") Status.ok :=
  inspectError_deterministic (GoError.plain "x") (GoError.plain "x")
    Status.ok Status.ok rfl rfl

/-- Claim C9: whenever a vendor error is recognized, the SqlState of
the result is exactly five characters long (the verbatim conversion of
the fixed five-byte SQLSTATE array), hence never shorter than two, so
the short-SQLSTATE branch of the fallback guard is never taken for a
recognized vendor error. -/
theorem inspectError_sqlstate_len5 (err : GoError) (e : MySQLError)
    (d : Status) (he : errorsAs err = some e) :
    (InspectError err d).SqlState.length = 5 ∧
      2 ≤ (InspectError err d).SqlState.length := by
  rw [inspectError_some_eq err e d he]
  exact ⟨sqlStateString_length e, by rw [sqlStateString_length]; omega⟩

theorem inspectError_sqlstate_len5_witness :
    (InspectError (GoError.mysqlErr errAccessDenied) Status.ok).SqlState.length
        = 5 ∧
      2 ≤ (InspectError (GoError.mysqlErr errAccessDenied)
        Status.ok).SqlState.length :=
  inspectError_sqlstate_len5 _ errAccessDenied Status.ok rfl

/-- Claim C10: the VendorCode of the result is always between 0 and
65535: it is either 0 (no vendor error) or the conversion of the
unsigned 16-bit driver error number, which never becomes negative and
never overflows the signed 32-bit field. -/
theorem inspectError_vendorCode_range (err : GoError) (d : Status) :
    0 ≤ (InspectError err d).VendorCode ∧
      (InspectError err d).VendorCode ≤ 65535 := by
  cases h : errorsAs err with
  | none =>
    rw [inspectError_none_eq err d h]
    constructor <;> norm_num
  | some e =>
    rw [inspectError_some_eq err e d h]
    have hb := e.Number.isLt
    constructor
    · show (0 : Int) ≤ (e.Number.val : Int)
      omega
    · show ((e.Number.val : Int)) ≤ 65535
      omega

end MySQLInspector
